import Mathlib

/-!
Verification of the custodial HTTP inbound transport
(`aries_cloudagent/transport/inbound/http_custodial.py`).

The handler `inbound_message_handler` and the transport `start` method are
embedded as pure Lean functions.  External collaborators (the wallet handler
that resolves tenants, the session created by `create_session`, the message
unpacking engine behind `session.receive`, and the response correlator behind
`session.wait_response`) are supplied as an explicit environment value, so a
single run of the handler is a total function of the request and that
environment.  Side effects (calls into collaborators, entering and closing the
scoped session block) are recorded as an event trace, and the final states of
the session and of the base context object are returned, so that resource
release and mutation claims become statements about the trace and those states.
-/

namespace CustodialHttp

/-- ASCII case folding of one character, modelling Python `str.lower` on the
ASCII range (the only range that matters for comparison with the all-ASCII
literal in the source). -/
def pyLowerChar (c : Char) : Char :=
  if 'A' ≤ c ∧ c ≤ 'Z' then Char.ofNat (c.toNat + 32) else c

/-- Python `s.lower()` (ASCII case folding). -/
def pyLower (s : String) : String :=
  String.mk (s.data.map pyLowerChar)

/-- Python `s.split(";", 1)[0]`: the part of the string before the first
semicolon (the whole string when no semicolon occurs). -/
def splitSemi (s : String) : String :=
  String.mk (s.data.takeWhile (fun c => c ≠ ';'))

/-- `ctype.split(";", 1)[0].lower()` from line 90 of the source. -/
def mediaType (ctype : String) : String :=
  pyLower (splitSemi ctype)

/-- A message body or response payload: Python `str` or `bytes`. -/
inductive Payload
  | bytes (b : List Nat)
  | text (s : String)
deriving DecidableEq, Repr

/-- Python truthiness of a `str` or `bytes` value: nonempty. -/
def Payload.truthy : Payload → Bool
  | .bytes b => !b.isEmpty
  | .text s => !s.isEmpty

/-- Python truthiness of `response` at line 129, whose value is `None` or a
payload. -/
def pyTruthy : Option Payload → Bool
  | none => false
  | some p => p.truthy

/-- A processing context (injection context bound to the session).  The `id`
field models object identity: `copy()` yields a context with a fresh `id`,
so two contexts are the same object exactly when their ids agree.
`boundWallet` records the tenant instance bound by `set_instance`.
(`set_instance` itself is modelled from the spec, see `Env`.) -/
structure Context where
  id : Nat
  external_plugins : Option (List String)
  boundWallet : Option String
deriving DecidableEq, Repr

/-- The inbound session created by `create_session`.  `pending_response` is
modelled from the spec: the response correlator may deliver at most one
payload to the session, and `clear_response()` discards it. -/
structure Session where
  context : Context
  can_respond : Bool
  accept_undelivered : Bool
  closed : Bool
  pending_response : Option Payload
deriving DecidableEq, Repr

/-- Outcome of `wallet_handler.get_wallet_by_msg(body)`.

Modelled from the spec: the tenant resolver, which is not part of this
source file, returns a sequence of zero or more candidate tenant (wallet)
identifiers, or fails with a tenant-resolution error. -/
inductive ResolveResult
  | ok (walletIds : List String)
  | tenantError
deriving DecidableEq, Repr

/-- Outcome of `session.receive(body)`.

Modelled from the spec: the unpacking engine, which is not part of this
source file, either yields a parsed message whose receipt carries the
`direct_response_requested` flag, or fails with `MessageParseError`. -/
inductive ReceiveResult
  | parsed (direct_response_requested : Bool)
  | parseError
deriving DecidableEq, Repr

/-- Behaviour of the external collaborators during one run of the handler:
the `external_plugins` setting of the base context, the resolver outcome,
the unpacker outcome, and the payload delivered (if any) by the response
correlator before `wait_response` returns (`none` models a timed-out wait). -/
structure Env where
  external_plugins : Option (List String)
  resolver : ResolveResult
  receiver : ReceiveResult
  waited : Option Payload
deriving DecidableEq, Repr

/-- The inbound HTTP request: the `content-type` header (absent maps to the
default `""` of `headers.get`), the body read as text, and the body read as
raw bytes. -/
structure Request where
  content_type : Option String
  text : String
  read : List Nat
deriving DecidableEq, Repr

/-- Observable effects of one handler run, in order. -/
inductive Event
  | get_wallet_by_msg (body : Payload)
  | set_instance (walletId : String) (contextId : Nat)
  | enter_session
  | receive (body : Payload)
  | wait_response
  | close_session
deriving DecidableEq, Repr

/-- Errors that may be raised by the transport code. -/
inductive AgentError
  | inboundTransportSetupError (host : String) (port : Nat)
  | tenantResolutionError
  | indexError
  | otherException
deriving DecidableEq, Repr

/-- Result of one handler run: a returned `web.Response` (status, optional
body, optional Content-Type header), the raised `web.HTTPBadRequest`
(status 400), or an uncaught exception escaping the handler. -/
inductive HandlerResult
  | response (status : Nat) (body : Option Payload) (contentType : Option String)
  | httpBadRequest
  | raised (e : AgentError)
deriving DecidableEq, Repr

/-- HTTP status produced by a handler result, when one is produced.
`web.HTTPBadRequest` has status 400. -/
def HandlerResult.status : HandlerResult → Option Nat
  | .response s _ _ => some s
  | .httpBadRequest => some 400
  | .raised _ => none

/-- Full observable outcome of one handler run: the result, the event trace,
the final session state, and the final state of the base context object
(to observe whether the shared default context was mutated). -/
structure Outcome where
  result : HandlerResult
  events : List Event
  session : Session
  base : Context
deriving DecidableEq, Repr

/-- The base (default) processing context bound to a fresh session.  Its id
is 0; a `copy()` made during tenant resolution gets id 1. -/
def baseContext (env : Env) : Context :=
  { id := 0, external_plugins := env.external_plugins, boundWallet := none }

/-- The session as created at line 98: `accept_undelivered=True`,
`can_respond=True`, bound to the default context. -/
def freshSession (env : Env) : Session :=
  { context := baseContext env
    can_respond := true
    accept_undelivered := true
    closed := false
    pending_response := none }

/-- Line 90: the body is read as text when the lowercased media type of the
content-type header equals `application/json`, and as bytes otherwise. -/
def requestBody (req : Request) : Payload :=
  if mediaType (req.content_type.getD "") = "application/json" then
    Payload.text req.text
  else
    Payload.bytes req.read

/-- Line 106: `ext_plugins and 'aries_cloudagent.wallet_handler' in ext_plugins`.
A `None` or empty list is falsy; otherwise membership is tested. -/
def tenantRoutingEnabled : Option (List String) → Bool
  | none => false
  | some l => !l.isEmpty && l.contains "aries_cloudagent.wallet_handler"

/-- Lines 115-143, the `async with session:` block.  Entering the block and
closing the session at every exit of the block (normal return, fall-through,
or the raised `HTTPBadRequest`) are recorded as events; `closed := true`
records that `session.close` ran. -/
def runSession (env : Env) (body : Payload) (session : Session) (base : Context)
    (evs : List Event) : Outcome :=
  let evs := evs ++ [Event.enter_session, Event.receive body]
  match env.receiver with
  | .parseError =>
      { result := .httpBadRequest
        events := evs ++ [Event.close_session]
        session := { session with closed := true }
        base := base }
  | .parsed direct =>
      if direct then
        let evs := evs ++ [Event.wait_response]
        let response := env.waited
        let session := { session with pending_response := env.waited }
        let session := { session with can_respond := false }
        let session := { session with pending_response := none }
        if pyTruthy response then
          match response with
          | some (.bytes b) =>
              { result := .response 200 (some (.bytes b)) (some "application/ssi-agent-wire")
                events := evs ++ [Event.close_session]
                session := { session with closed := true }
                base := base }
          | some (.text s) =>
              { result := .response 200 (some (.text s)) (some "application/json")
                events := evs ++ [Event.close_session]
                session := { session with closed := true }
                base := base }
          | none =>
              { result := .response 200 none none
                events := evs ++ [Event.close_session]
                session := { session with closed := true }
                base := base }
        else
          { result := .response 200 none none
            events := evs ++ [Event.close_session]
            session := { session with closed := true }
            base := base }
      else
        { result := .response 200 none none
          events := evs ++ [Event.close_session]
          session := { session with closed := true }
          base := base }

/-- Lines 78-143: `inbound_message_handler`.  The tenant adaptation block
(lines 104-113) runs after the session is created and before the
`async with session:` block; an exception raised there escapes without the
session block ever being entered. -/
def inbound_message_handler (env : Env) (req : Request) : Outcome :=
  let body := requestBody req
  let base := baseContext env
  let session := freshSession env
  if tenantRoutingEnabled env.external_plugins then
    match env.resolver with
    | .tenantError =>
        { result := .raised .tenantResolutionError
          events := [Event.get_wallet_by_msg body]
          session := session
          base := base }
    | .ok walletIds =>
        let copied : Context := { base with id := 1 }
        let session := { session with context := copied }
        match walletIds with
        | [] =>
            { result := .raised .indexError
              events := [Event.get_wallet_by_msg body]
              session := session
              base := base }
        | w :: _ =>
            let copied := { copied with boundWallet := some w }
            let session := { session with context := copied }
            runSession env body session base
              [Event.get_wallet_by_msg body, Event.set_instance w copied.id]
  else
    runSession env body session base []

/-- Outcome of `await self.site.start()` at line 65.

Modelled from the spec: starting the aiohttp site either succeeds, fails
with an OS-level bind error (`OSError`), or fails with some other
exception. -/
inductive SiteStart
  | ok
  | osError
  | otherError
deriving DecidableEq, Repr

/-- Result of `CustodialHttpTransport.start`. -/
inductive StartOutcome
  | started
  | raised (e : AgentError)
deriving DecidableEq, Repr

/-- Lines 49-70: `CustodialHttpTransport.start`.  Only `OSError` from
`site.start()` is caught and re-raised as `InboundTransportSetupError`
carrying the configured host and port; any other exception propagates
unchanged. -/
def start (host : String) (port : Nat) (s : SiteStart) : StartOutcome :=
  match s with
  | .ok => .started
  | .osError => .raised (.inboundTransportSetupError host port)
  | .otherError => .raised .otherException

/- Concrete environments and requests used to instantiate the theorems
below on explicit inputs. -/

/-- Tenant routing enabled, one resolved wallet, direct response requested,
a nonempty text payload delivered. -/
def envDirectText : Env :=
  { external_plugins := some ["aries_cloudagent.wallet_handler"]
    resolver := .ok ["wallet-1"]
    receiver := .parsed true
    waited := some (.text "ack") }

/-- Tenant routing enabled, tenant resolution fails. -/
def envTenantErr : Env :=
  { external_plugins := some ["aries_cloudagent.wallet_handler"]
    resolver := .tenantError
    receiver := .parsed false
    waited := none }

/-- Tenant routing enabled, resolver returns zero candidates. -/
def envEmptyIds : Env :=
  { external_plugins := some ["aries_cloudagent.wallet_handler"]
    resolver := .ok []
    receiver := .parsed false
    waited := none }

/-- Tenant routing disabled, direct response requested, an empty text
payload delivered before the wait completes. -/
def envEmptyText : Env :=
  { external_plugins := none
    resolver := .ok []
    receiver := .parsed true
    waited := some (.text "") }

/-- Tenant routing disabled, the unpacking engine rejects the bytes. -/
def envParseErr : Env :=
  { external_plugins := none
    resolver := .ok []
    receiver := .parseError
    waited := none }

/-- Tenant routing disabled, direct response requested, the wait times out
with no payload delivered. -/
def envTimeout : Env :=
  { external_plugins := none
    resolver := .ok []
    receiver := .parsed true
    waited := none }

/-- A request with the structured-text content type. -/
def reqJson : Request :=
  { content_type := some "application/json", text := "hello", read := [104] }

/-- A request with a non-JSON content type. -/
def reqOctet : Request :=
  { content_type := some "application/octet-stream", text := "hello", read := [104] }

/-- C1: the spec requires the session to be closed on every exit path of
`inbound_message_handler`, including when tenant resolution fails.  The code
violates this: the tenant adaptation block at lines 104-113 runs after the
session is created (line 98) but before the `async with session:` block
(line 115), so a tenant-resolution failure propagates with `session.close`
never running.  This theorem evaluates the handler at such an input: the
result is the uncaught tenant-resolution error, the event trace holds only
the resolver call (no session entry, no `receive`, no close), and the final
session is still unclosed. -/
theorem C1_tenant_error_leaves_session_unclosed :
    inbound_message_handler envTenantErr reqOctet =
      { result := .raised .tenantResolutionError
        events := [Event.get_wallet_by_msg (.bytes [104])]
        session :=
          { context :=
              { id := 0
                external_plugins := some ["aries_cloudagent.wallet_handler"]
                boundWallet := none }
            can_respond := true
            accept_undelivered := true
            closed := false
            pending_response := none }
        base :=
          { id := 0
            external_plugins := some ["aries_cloudagent.wallet_handler"]
            boundWallet := none } } := by
  rfl

/-- C2: whenever the handler performs the response wait (so the parsed
message requested a direct response), the final session has `can_respond`
false and no pending response, whatever the wait returned. -/
theorem C2_can_respond_cleared_after_wait (env : Env) (req : Request)
    (h : Event.wait_response ∈ (inbound_message_handler env req).events) :
    (inbound_message_handler env req).session.can_respond = false ∧
    (inbound_message_handler env req).session.pending_response = none := by
  revert h
  unfold inbound_message_handler runSession
  dsimp only
  repeat' split
  all_goals intro h
  all_goals simp_all [freshSession]

theorem C2_witness :
    (inbound_message_handler envDirectText reqJson).session.can_respond = false ∧
    (inbound_message_handler envDirectText reqJson).session.pending_response = none :=
  C2_can_respond_cleared_after_wait envDirectText reqJson (by decide)

/-- C3: when `session.receive` raises `MessageParseError` (and the session
block was entered, so `receive` was actually attempted), the handler
produces `web.HTTPBadRequest`, an HTTP 400 client-fault outcome. -/
theorem C3_parse_error_bad_request (env : Env) (req : Request)
    (hrec : env.receiver = .parseError)
    (henter : Event.enter_session ∈ (inbound_message_handler env req).events) :
    (inbound_message_handler env req).result = .httpBadRequest ∧
    HandlerResult.status (inbound_message_handler env req).result = some 400 := by
  revert henter
  unfold inbound_message_handler runSession
  dsimp only
  repeat' split
  all_goals intro henter
  all_goals simp_all [HandlerResult.status]

theorem C3_witness :
    (inbound_message_handler envParseErr reqOctet).result = .httpBadRequest ∧
    HandlerResult.status (inbound_message_handler envParseErr reqOctet).result = some 400 :=
  C3_parse_error_bad_request envParseErr reqOctet rfl (by decide)

/-- C4: the body is read as text exactly when the media type of the
content-type header (the part before any semicolon, case-folded) equals
`application/json`, as bytes otherwise, and every `receive` call in the
trace is passed exactly that body. -/
theorem C4_body_reading (env : Env) (req : Request) :
    (mediaType (req.content_type.getD "") = "application/json" →
       requestBody req = .text req.text) ∧
    (mediaType (req.content_type.getD "") ≠ "application/json" →
       requestBody req = .bytes req.read) ∧
    (∀ p, Event.receive p ∈ (inbound_message_handler env req).events →
       p = requestBody req) := by
  refine ⟨?_, ?_, ?_⟩
  · intro h; simp [requestBody, h]
  · intro h; simp [requestBody, h]
  · intro p
    unfold inbound_message_handler runSession
    dsimp only
    repeat' split
    all_goals intro h
    all_goals simp_all

theorem C4_witness :
    requestBody reqJson = Payload.text "hello" ∧
    Payload.bytes [104] = requestBody reqOctet :=
  ⟨(C4_body_reading envTimeout reqJson).1 (by decide),
   (C4_body_reading envTimeout reqOctet).2.2 (Payload.bytes [104]) (by decide)⟩

/-- C5 counterexample: the claim asserts that any delivered payload yields a
typed 200 body.  At this input the wait returns the delivered empty text
payload, yet `if response:` at line 129 is falsy for an empty string, so
the handler falls through to the bare empty 200 and does not return the
typed response the claim requires. -/
theorem C5_counterexample :
    (inbound_message_handler envEmptyText reqOctet).result = .response 200 none none ∧
    Event.wait_response ∈ (inbound_message_handler envEmptyText reqOctet).events ∧
    envEmptyText.waited = some (.text "") ∧
    (inbound_message_handler envEmptyText reqOctet).result ≠
      .response 200 (some (.text "")) (some "application/json") := by
  decide

/-- C5 (amended): when the wait was performed and returned a delivered
payload that is truthy (nonempty), the handler returns a 200 response whose
body and Content-Type are chosen by the runtime type of the payload: bytes
are tagged `application/ssi-agent-wire`, text is tagged `application/json`. -/
theorem C5_truthy_payload_typed_response (env : Env) (req : Request) (p : Payload)
    (hw : Event.wait_response ∈ (inbound_message_handler env req).events)
    (hp : env.waited = some p)
    (ht : p.truthy = true) :
    (inbound_message_handler env req).result =
      (match p with
       | .bytes b => .response 200 (some (.bytes b)) (some "application/ssi-agent-wire")
       | .text s => .response 200 (some (.text s)) (some "application/json")) := by
  revert hw
  unfold inbound_message_handler runSession
  dsimp only
  repeat' split
  all_goals intro hw
  all_goals simp_all [pyTruthy]

theorem C5_witness :
    (inbound_message_handler envDirectText reqJson).result =
      .response 200 (some (.text "ack")) (some "application/json") :=
  C5_truthy_payload_typed_response envDirectText reqJson (.text "ack") (by decide) rfl rfl

/-- C6: when the message parsed and either no direct response was requested
or the wait elapsed without a payload, the handler returns the empty 200
success, and when no direct response was requested the wait is never
performed. -/
theorem C6_no_payload_empty_success (env : Env) (req : Request) (d : Bool)
    (hrec : env.receiver = .parsed d)
    (henter : Event.enter_session ∈ (inbound_message_handler env req).events)
    (hnp : d = false ∨ env.waited = none) :
    (inbound_message_handler env req).result = .response 200 none none ∧
    (d = false → Event.wait_response ∉ (inbound_message_handler env req).events) := by
  revert henter
  unfold inbound_message_handler runSession
  dsimp only
  repeat' split
  all_goals intro henter
  all_goals simp_all [pyTruthy]

theorem C6_witness :
    (inbound_message_handler envTimeout reqOctet).result = .response 200 none none :=
  (C6_no_payload_empty_success envTimeout reqOctet true rfl (by decide) (Or.inr rfl)).1

/-- C7: when tenant routing is disabled by the `external_plugins` setting,
no resolver call and no tenant open occur, and the context bound to the
session is the base context itself (same object id 0, so
reference-identical — no substitution occurred). -/
theorem C7_disabled_routing_keeps_base_context (env : Env) (req : Request)
    (h : tenantRoutingEnabled env.external_plugins = false) :
    (inbound_message_handler env req).session.context = baseContext env ∧
    (∀ b, Event.get_wallet_by_msg b ∉ (inbound_message_handler env req).events) ∧
    (∀ w i, Event.set_instance w i ∉ (inbound_message_handler env req).events) := by
  refine ⟨?_, ?_, ?_⟩
  · unfold inbound_message_handler runSession
    dsimp only
    repeat' split
    all_goals simp_all [freshSession]
  · intro b
    unfold inbound_message_handler runSession
    dsimp only
    repeat' split
    all_goals simp_all
  · intro w i
    unfold inbound_message_handler runSession
    dsimp only
    repeat' split
    all_goals simp_all

theorem C7_witness :
    (inbound_message_handler envTimeout reqOctet).session.context = baseContext envTimeout :=
  (C7_disabled_routing_keeps_base_context envTimeout reqOctet rfl).1

/-- C8: with tenant routing enabled, the base (default) context object ends
the run unchanged and with no tenant instance bound to it; every
`set_instance` (tenant open) in the trace targets the fresh copy (object
id 1, distinct from the base id) and happens only when resolution returned
a nonempty candidate list; and on success the session is bound, by
substitution, to the copy carrying the first resolved candidate. -/
theorem C8_substitution_not_mutation (env : Env) (req : Request)
    (h : tenantRoutingEnabled env.external_plugins = true) :
    (inbound_message_handler env req).base = baseContext env ∧
    (inbound_message_handler env req).base.boundWallet = none ∧
    (∀ w i, Event.set_instance w i ∈ (inbound_message_handler env req).events →
       i = 1 ∧ i ≠ (baseContext env).id ∧ ∃ ws, env.resolver = .ok (w :: ws)) ∧
    (∀ w ws, env.resolver = .ok (w :: ws) →
       (inbound_message_handler env req).session.context =
         { id := 1, external_plugins := env.external_plugins, boundWallet := some w }) := by
  refine ⟨?_, ?_, ?_, ?_⟩
  · unfold inbound_message_handler runSession
    dsimp only
    repeat' split
    all_goals simp_all [baseContext]
  · unfold inbound_message_handler runSession
    dsimp only
    repeat' split
    all_goals simp_all [baseContext]
  · intro w i
    unfold inbound_message_handler runSession
    dsimp only
    repeat' split
    all_goals intro hm
    all_goals simp_all [baseContext]
  · intro w ws hres
    unfold inbound_message_handler runSession
    dsimp only
    repeat' split
    all_goals simp_all [baseContext, freshSession]

theorem C8_witness :
    (inbound_message_handler envDirectText reqJson).base = baseContext envDirectText ∧
    (inbound_message_handler envDirectText reqJson).session.context =
      { id := 1, external_plugins := envDirectText.external_plugins
        boundWallet := some "wallet-1" } :=
  ⟨(C8_substitution_not_mutation envDirectText reqJson (by decide)).1,
   (C8_substitution_not_mutation envDirectText reqJson (by decide)).2.2.2 "wallet-1" [] rfl⟩

/-- C9: `start` raises `InboundTransportSetupError` (carrying the configured
host and port) exactly when `site.start()` fails with an OS-level bind
error, and `inbound_message_handler` never produces that error as an
exchange-level outcome. -/
theorem C9_setup_error_iff_bind_error (host : String) (port : Nat) (s : SiteStart) :
    (start host port s = .raised (.inboundTransportSetupError host port) ↔ s = .osError) ∧
    (∀ env req e, (inbound_message_handler env req).result = .raised e →
       ∀ h p, e ≠ .inboundTransportSetupError h p) := by
  constructor
  · cases s <;> simp [start]
  · intro env req e hr h p
    revert hr
    unfold inbound_message_handler runSession
    dsimp only
    repeat' split
    all_goals intro hr
    all_goals try simp_all
    all_goals (subst hr; intro hc; cases hc)

theorem C9_witness :
    start "localhost" 8080 SiteStart.osError =
      .raised (.inboundTransportSetupError "localhost" 8080) ∧
    AgentError.tenantResolutionError ≠ AgentError.inboundTransportSetupError "h" 1 :=
  ⟨(C9_setup_error_iff_bind_error "localhost" 8080 .osError).1.mpr rfl,
   (C9_setup_error_iff_bind_error "x" 0 .ok).2 envTenantErr reqOctet
     .tenantResolutionError (by decide) "h" 1⟩

/-- C10: with tenant routing enabled and the resolver returning zero
candidates, the unguarded `wallet_ids[0]` raises an uncaught index error
before the `async with session:` block is entered: the result is the raised
index error, the session block is never entered, `receive` is never
attempted, and the session is left unclosed. -/
theorem C10_empty_candidates_index_error (env : Env) (req : Request)
    (h : tenantRoutingEnabled env.external_plugins = true)
    (hr : env.resolver = .ok []) :
    (inbound_message_handler env req).result = .raised .indexError ∧
    Event.enter_session ∉ (inbound_message_handler env req).events ∧
    (∀ p, Event.receive p ∉ (inbound_message_handler env req).events) ∧
    (inbound_message_handler env req).session.closed = false := by
  refine ⟨?_, ?_, ?_, ?_⟩
  · unfold inbound_message_handler runSession
    dsimp only
    repeat' split
    all_goals simp_all
  · unfold inbound_message_handler runSession
    dsimp only
    repeat' split
    all_goals simp_all
  · intro p
    unfold inbound_message_handler runSession
    dsimp only
    repeat' split
    all_goals simp_all
  · unfold inbound_message_handler runSession
    dsimp only
    repeat' split
    all_goals simp_all [freshSession]

theorem C10_witness :
    (inbound_message_handler envEmptyIds reqOctet).result = .raised .indexError :=
  (C10_empty_candidates_index_error envEmptyIds reqOctet (by decide) rfl).1

end CustodialHttp
